import Mathlib

/-!
Verification development for the ai-query-interface repository: a shallow
embedding of the client-side code (src/services/api.ts, src/dataLoader.ts,
and the chat screen component) together with spec-modelled definitions for
the backend pieces (intent classifier, top-customer resolver) that are not
present in the reviewed sources.
-/

set_option autoImplicit false

/-- A JavaScript runtime value, as far as the client code observes it:
null, undefined, strings, numbers (modelled as rationals; every value in the
properties below is exact), and plain objects modelled as association lists
from field names to values. -/
inductive JsValue where
  | null
  | undef
  | str (s : String)
  | num (q : ℚ)
  | obj (fields : List (String × JsValue))

/-- Reading a field of a JavaScript value, as `response.data.answer` does in
src/services/api.ts line 24: on `null` or `undefined` the access throws a
TypeError; on a primitive it evaluates to `undefined`; on an object it yields
the bound value, or `undefined` when the field is absent. -/
def JsValue.getField : JsValue → String → Except String JsValue
  | .null, k => .error ("TypeError: cannot read properties of null reading " ++ k)
  | .undef, k => .error ("TypeError: cannot read properties of undefined reading " ++ k)
  | .str _, _ => .ok .undef
  | .num _, _ => .ok .undef
  | .obj fields, k => .ok ((fields.lookup k).getD .undef)

/-- The outcome of the `axios.get` call in src/services/api.ts: with the
default configuration axios rejects on a network failure or a non-2xx HTTP
status, and resolves with the (already deserialized) response body
otherwise — including bodies of any shape. -/
inductive AxiosOutcome where
  | failure
  | success (data : JsValue)

/-- The fixed fallback sentence of src/services/api.ts line 27. -/
def fallbackMessage : String := "Sorry, something went wrong while querying the data."

/-- Shallow embedding of `queryCSV` (src/services/api.ts lines 19-29) as a
function of the question and of the outcome of the backend call: a rejected
request, and any TypeError thrown while reading `response.data.answer`, are
caught and turned into `fallbackMessage`; otherwise the value of the
`answer` field is returned verbatim. The returned `JsValue` is the value
the promise resolves with; the function being total captures that the
promise never rejects. -/
def queryCSV (question : String) (outcome : AxiosOutcome) : JsValue :=
  match question, outcome with
  | _, .failure => .str fallbackMessage
  | _, .success data =>
    match data.getField "answer" with
    | .error _ => .str fallbackMessage
    | .ok v => v

/-- A parsed CSV record: field name to field text, one pair per column. -/
def Row : Type := List (String × String)

/-- Shallow embedding of `parseCSV` (src/dataLoader.ts lines 10-12), which
delegates to the external Papa.parse with header and skipEmptyLines set:
empty lines are dropped, the first remaining line supplies the headers, and
every later line becomes a record pairing each header with the field in the
same column. -/
def parseCSV (csvText : String) : List Row :=
  match (csvText.splitOn "\n").filter (fun l => l ≠ "") with
  | [] => []
  | header :: rows =>
    let hs := header.splitOn ","
    rows.map (fun r => hs.zip (r.splitOn ","))

/-- Model of the JavaScript `toLowerCase` runtime method used at
src/dataLoader.ts lines 29 and 32 (ASCII inputs only appear here). -/
def jsToLowerCase (s : String) : String := String.mk (s.data.map Char.toLower)

/-- The fixed file list of `loadData` (src/dataLoader.ts line 22). -/
def files : List String := ["Customers", "Detail", "Inventory", "Pricelist"]

/-- One iteration of the loop of `loadData` (src/dataLoader.ts lines 25-34):
the accumulator carries the dictionary built so far and the diagnostic log;
a successful fetch binds the lowercased name to the parsed rows, a raised
fetch binds it to the empty collection and logs a note. -/
def loadStep (fetchResult : String → Except String String)
    (acc : List (String × List Row) × List String) (name : String) :
    List (String × List Row) × List String :=
  match fetchResult name with
  | .ok text => (acc.1 ++ [(jsToLowerCase name, parseCSV text)], acc.2)
  | .error e =>
    (acc.1 ++ [(jsToLowerCase name, [])],
     acc.2 ++ ["Error loading " ++ name ++ ".csv: " ++ e])

/-- Shallow embedding of `loadData` (src/dataLoader.ts lines 21-43) as a
function of the outcome of each fetch-and-parse: it folds the loop body over
the four file names, returning the dictionary and the diagnostic log. -/
def loadData (fetchResult : String → Except String String) :
    List (String × List Row) × List String :=
  files.foldl (loadStep fetchResult) ([], [])

/-- The rows `loadData` binds for one file: the parsed text on success, the
empty collection on failure. -/
def loadedRows (fetchResult : String → Except String String) (name : String) :
    List Row :=
  match fetchResult name with
  | .ok text => parseCSV text
  | .error _ => []

/-- The diagnostic notes `loadData` logs for one file. -/
def loadLog (fetchResult : String → Except String String) (name : String) :
    List String :=
  match fetchResult name with
  | .ok _ => []
  | .error e => ["Error loading " ++ name ++ ".csv: " ++ e]

@[simp] theorem toLower_customers : jsToLowerCase "Customers" = "customers" := rfl

@[simp] theorem toLower_detail : jsToLowerCase "Detail" = "detail" := rfl

@[simp] theorem toLower_inventory : jsToLowerCase "Inventory" = "inventory" := rfl

@[simp] theorem toLower_pricelist : jsToLowerCase "Pricelist" = "pricelist" := rfl

/-- Normal form of `loadData`: regardless of which fetches fail, the result
is the four-entry dictionary in file order together with the concatenated
per-file logs. -/
theorem loadData_eq (f : String → Except String String) :
    loadData f =
      ([("customers", loadedRows f "Customers"),
        ("detail", loadedRows f "Detail"),
        ("inventory", loadedRows f "Inventory"),
        ("pricelist", loadedRows f "Pricelist")],
       loadLog f "Customers" ++ loadLog f "Detail" ++
         loadLog f "Inventory" ++ loadLog f "Pricelist") := by
  rcases hC : f "Customers" with tC | eC <;>
    rcases hD : f "Detail" with tD | eD <;>
      rcases hI : f "Inventory" with tI | eI <;>
        rcases hP : f "Pricelist" with tP | eP <;>
          simp [loadData, files, loadStep, loadedRows, loadLog, hC, hD, hI, hP]

/-- Claim C3: when every fetch succeeds, `loadData` returns exactly the
four parsed row collections, keyed by the lowercase file names in file
order, each value being `parseCSV` of the corresponding CSV text. -/
theorem C3_loadData_four_parsed (f : String → Except String String)
    (tC tD tI tP : String)
    (hC : f "Customers" = .ok tC) (hD : f "Detail" = .ok tD)
    (hI : f "Inventory" = .ok tI) (hP : f "Pricelist" = .ok tP) :
    (loadData f).1 =
      [("customers", parseCSV tC), ("detail", parseCSV tD),
       ("inventory", parseCSV tI), ("pricelist", parseCSV tP)] := by
  rw [loadData_eq]
  simp [loadedRows, hC, hD, hI, hP]

/-- Witness for C3 on a concrete snapshot, exercising the header row. -/
theorem C3_witness :
    (loadData (fun name =>
        if name = "Customers" then .ok "id,name\nc1,Alice"
        else .ok "")).1 =
      [("customers", parseCSV "id,name\nc1,Alice"), ("detail", parseCSV ""),
       ("inventory", parseCSV ""), ("pricelist", parseCSV "")] :=
  C3_loadData_four_parsed _ "id,name\nc1,Alice" "" "" "" rfl rfl rfl rfl

/-- Claim C4: a failing fetch never fails the whole load — `loadData` still
returns the full dictionary, binds every failed dataset to the empty
collection with a diagnostic note in the log, and binds every successful
dataset to its parsed rows unaffected. -/
theorem C4_partial_failure (f : String → Except String String)
    (name : String) (hmem : name ∈ files) :
    (∀ e, f name = .error e →
        (loadData f).1.lookup (jsToLowerCase name) = some [] ∧
        ("Error loading " ++ name ++ ".csv: " ++ e) ∈ (loadData f).2) ∧
    (∀ text, f name = .ok text →
        (loadData f).1.lookup (jsToLowerCase name) = some (parseCSV text)) := by
  rw [loadData_eq]
  fin_cases hmem <;>
    constructor <;>
      intro x hx <;>
        simp [loadedRows, loadLog, hx, List.lookup]

/-- A concrete fetch outcome for the C4 witness: the Detail fetch raises,
the other three succeed. -/
def witnessFetch (name : String) : Except String String :=
  if name = "Detail" then .error "404" else .ok "id\nv"

/-- Witness for C4: one failed fetch is bound to the empty collection and
logged, while the sibling datasets load unaffected. -/
theorem C4_witness :
    ((∀ e, witnessFetch "Detail" = .error e →
        (loadData witnessFetch).1.lookup (jsToLowerCase "Detail") = some [] ∧
        ("Error loading " ++ "Detail" ++ ".csv: " ++ e) ∈
          (loadData witnessFetch).2) ∧
    (∀ text, witnessFetch "Detail" = .ok text →
        (loadData witnessFetch).1.lookup (jsToLowerCase "Detail") =
          some (parseCSV text))) ∧
    witnessFetch "Detail" = .error "404" :=
  ⟨C4_partial_failure witnessFetch "Detail" (by simp [files]), rfl⟩

/-- Claim C9: whatever the fetch outcomes, the dictionary returned by
`loadData` binds all four keys `customers`, `detail`, `inventory`,
`pricelist` to an array, so the debug accesses after the loop never
dereference a missing key. -/
theorem C9_all_keys_present (f : String → Except String String) :
    ((loadData f).1.lookup "customers").isSome ∧
    ((loadData f).1.lookup "detail").isSome ∧
    ((loadData f).1.lookup "inventory").isSome ∧
    ((loadData f).1.lookup "pricelist").isSome := by
  rw [loadData_eq]
  simp

/-- Modelled from the spec: the discriminated intent type of the backend
intent classifier (spec section 4.1), which is absent from the reviewed
sources. Thresholds are exact rationals standing for the floating-point
values, which are exact on the inputs considered here. -/
inductive Intent where
  | topCustomer
  | topItem
  | itemsUnderPrice (threshold : ℚ)
  | unrecognized (originalText : String)
deriving DecidableEq

/-- Modelled from the spec: the classifier normalization (spec section 4.1,
matching is case-insensitive and punctuation-tolerant) — lowercase the text
and drop punctuation marks that do not take part in any pattern. -/
def normalizeText (s : String) : List Char :=
  (s.data.map Char.toLower).filter (fun c => c ∉ ['?', '!', ','])

/-- The remainder of the text after the first occurrence of the pattern, or
none when the pattern does not occur as a contiguous fragment. -/
def afterSub (pat : List Char) : List Char → Option (List Char)
  | [] => if pat.isEmpty then some [] else none
  | c :: rest =>
    if pat.isPrefixOf (c :: rest) then some ((c :: rest).drop pat.length)
    else afterSub pat rest

/-- The numeric value of a run of decimal digit characters. -/
def digitsToNat (ds : List Char) : Nat :=
  ds.foldl (fun n c => 10 * n + (c.toNat - 48)) 0

/-- Modelled from the spec: the threshold grammar of the classifier (spec
section 4.1) — after the matched fragment, a floating-point literal given
as a digit run with an optional fractional part, read exactly. -/
def parseThreshold (l : List Char) : Option ℚ :=
  let intPart := l.takeWhile Char.isDigit
  if intPart.isEmpty then none
  else
    match l.drop intPart.length with
    | '.' :: rest =>
      let frac := rest.takeWhile Char.isDigit
      some ((digitsToNat intPart : ℚ) +
        (digitsToNat frac : ℚ) / ((10 : ℚ) ^ frac.length))
    | _ => some ((digitsToNat intPart : ℚ))

/-- Modelled from the spec: the fixed synonym-pattern table of the missing
backend classifier (spec section 4.1) for the parameterless intents. -/
def literalPatterns : List (String × Intent) :=
  [("who spends the most", .topCustomer),
   ("top customer", .topCustomer),
   ("best customer", .topCustomer),
   ("top item", .topItem),
   ("best seller", .topItem)]

/-- Modelled from the spec: the threshold-taking patterns of the table
(spec section 4.1), each expecting a number after the dollar sign. -/
def thresholdPatterns : List String := ["less than $", "under $", "below $"]

/-- The patterns of the table that match the normalized text, each paired
with the length of its literal for the longest-literal-wins rule. -/
def matchCandidates (t : List Char) : List (Nat × Intent) :=
  literalPatterns.filterMap
    (fun p =>
      if (afterSub p.1.data t).isSome then some (p.1.length, p.2) else none)
  ++ thresholdPatterns.filterMap
    (fun p =>
      match afterSub p.data t with
      | some rest =>
        (parseThreshold rest).map (fun q => (p.length, Intent.itemsUnderPrice q))
      | none => none)

/-- The most specific candidate: the one with the longest matched literal
(spec section 4.1, when multiple patterns match the longest literal match
wins; earlier table entries win exact length ties). -/
def pickMostSpecific (cands : List (Nat × Intent)) : Option Intent :=
  (cands.foldl
    (fun best c =>
      match best with
      | none => some c
      | some b => if b.1 < c.1 then some c else some b) none).map Prod.snd

/-- Modelled from the spec: the backend intent classifier (spec sections
4.1 and 9), absent from the reviewed sources — normalize, collect the
matching patterns, take the most specific, and fall back to `unrecognized`
with the original text. -/
def classifyIntent (question : String) : Intent :=
  match pickMostSpecific (matchCandidates (normalizeText question)) with
  | some i => i
  | none => .unrecognized question

/-- Modelled from the spec: one comparison step of the top-customer
selection (spec section 4.3) — a challenger entry replaces the best entry
so far when it spends strictly more, or spends the same with a
lexicographically smaller identifier. -/
def betterEntry (b e : String × ℚ) : String × ℚ :=
  if b.2 < e.2 ∨ (e.2 = b.2 ∧ e.1 < b.1) then e else b

/-- Modelled from the spec: the selection at the heart of the missing
backend TopCustomerResolver (spec section 4.3) — over the entries of the
customer-spend aggregate it picks the maximum total spend, ties broken by
the lexicographically smallest customer identifier; `none` on an empty
aggregate stands for raising NoDataError. -/
def selectTop (entries : List (String × ℚ)) : Option (String × ℚ) :=
  match entries with
  | [] => none
  | e :: rest => some (rest.foldl betterEntry e)

/-- The timeout constant of the chat screen (7000 ms, line 36 of the chat
screen component). -/
def TIMEOUT_MS : Nat := 7000

/-- The fixed timeout sentence of the chat screen (line 36). -/
def timeoutMessage : String := "Sorry, that request timed out."

/-- Promise.race of the backend query against the timeout promise of the
chat screen, as a function of the time (in ms) at which the query promise
settles — `none` when it never settles — and of its resolved value. The
timeout promise always resolves at `TIMEOUT_MS`; whichever promise settles
first supplies the value, the timeout winning the (unobservable) exact tie. -/
def raceWithTimeout (tq : Option Nat) (v : JsValue) : JsValue :=
  match tq with
  | none => .str timeoutMessage
  | some t => if t < TIMEOUT_MS then v else .str timeoutMessage

/-- Model of the JavaScript `trim` runtime method used by `handleSend`
(line 28 of the chat screen component): it removes whitespace characters
from both ends of the string. -/
def jsTrim (s : String) : String :=
  String.mk
    (((s.data.dropWhile Char.isWhitespace).reverse.dropWhile
        Char.isWhitespace).reverse)

/-- The component state of the chat screen: the three useState cells
question, messages (sender and text pairs) and isLoading. -/
structure ChatState where
  question : String
  messages : List (String × JsValue)
  isLoading : Bool

/-- Shallow embedding of `handleSend` (chat screen component, lines 27-51)
as a state transition, parametrized by the settle time of the query promise
and the backend outcome. It returns the state after the run together with a
flag recording whether a backend request was sent. A blank question returns
early; otherwise the user message is appended, the race result is appended
as the bot message, loading ends and the input clears. The try block's
raced value is total — `queryCSV` catches every error and the timeout
promise always resolves — so the catch branch has no counterpart here. -/
def handleSend (st : ChatState) (tq : Option Nat) (outcome : AxiosOutcome) :
    ChatState × Bool :=
  if jsTrim st.question = "" then (st, false)
  else
    ({ question := "",
       messages := st.messages ++
         [("user", .str st.question),
          ("bot", raceWithTimeout tq (queryCSV st.question outcome))],
       isLoading := false }, true)

/-- Claim C5: the 7-second timeout is imposed by the chat layer, not by
`queryCSV`: whenever the query promise has not settled within `TIMEOUT_MS`
(it settles later than 7000 ms or never), the bot message the user receives
is the fixed sentence of `timeoutMessage`, and the timer constant is 7000
milliseconds. The query call itself is time-independent: `queryCSV` is a
function of the question and backend outcome only. -/
theorem C5_caller_imposed_timeout (st : ChatState) (tq : Option Nat)
    (outcome : AxiosOutcome) (hq : jsTrim st.question ≠ "")
    (h : ∀ t, tq = some t → TIMEOUT_MS < t) :
    (handleSend st tq outcome).1.messages =
      st.messages ++
        [("user", .str st.question), ("bot", .str timeoutMessage)] ∧
    TIMEOUT_MS = 7000 := by
  refine ⟨?_, rfl⟩
  cases tq with
  | none => simp [handleSend, hq, raceWithTimeout]
  | some t =>
    have ht : TIMEOUT_MS < t := h t rfl
    simp [handleSend, hq, raceWithTimeout, Nat.not_lt_of_lt ht,
      Nat.lt_asymm ht]

/-- Witness for C5: a query that would settle at 8000 ms loses the race and
the user sees the timeout sentence. -/
theorem C5_witness :
    (handleSend ⟨"top item", [], false⟩ (some 8000) .failure).1.messages =
      [] ++ [("user", .str "top item"), ("bot", .str timeoutMessage)] ∧
    TIMEOUT_MS = 7000 :=
  C5_caller_imposed_timeout ⟨"top item", [], false⟩ (some 8000) .failure
    (by decide)
    (fun t ht => by injection ht with h; simp [TIMEOUT_MS]; omega)

/-- Claim C8: a question that is empty or all whitespace makes `handleSend`
return immediately: no backend request is sent and the state — message
history, loading flag and input text — is returned unchanged. -/
theorem C8_blank_question_no_effect (st : ChatState) (tq : Option Nat)
    (outcome : AxiosOutcome)
    (h : ∀ c ∈ st.question.data, c.isWhitespace) :
    handleSend st tq outcome = (st, false) := by
  have htrim : jsTrim st.question = "" := by
    have h1 : st.question.data.dropWhile Char.isWhitespace = [] :=
      List.dropWhile_eq_nil_iff.mpr h
    simp [jsTrim, h1]
  simp [handleSend, htrim]

/-- Witness for C8 at a whitespace-only question. -/
theorem C8_witness :
    handleSend ⟨"  ", [("user", .str "hi")], false⟩ none .failure =
      (⟨"  ", [("user", .str "hi")], false⟩, false) :=
  C8_blank_question_no_effect ⟨"  ", [("user", .str "hi")], false⟩ none
    .failure (by decide)

/-- Claim C10: for every non-blank question, every backend outcome and every
settle time, the run of `handleSend` appends exactly one user message and
one bot message; the raced value is total (both racing promises always
resolve — `queryCSV` catches every error — so the catch branch is
unreachable) and a request is always sent. -/
theorem C10_two_messages_appended (st : ChatState) (tq : Option Nat)
    (outcome : AxiosOutcome) (hq : jsTrim st.question ≠ "") :
    (handleSend st tq outcome).1.messages =
      st.messages ++
        [("user", .str st.question),
         ("bot", raceWithTimeout tq (queryCSV st.question outcome))] ∧
    (handleSend st tq outcome).2 = true := by
  simp [handleSend, hq]

/-- Witness for C10: a concrete non-blank send appends its user and bot
messages. -/
theorem C10_witness :
    (handleSend ⟨"top customer", [], false⟩ (some 10) .failure).1.messages =
      [] ++ [("user", .str "top customer"),
             ("bot", raceWithTimeout (some 10)
                (queryCSV "top customer" .failure))] ∧
    (handleSend ⟨"top customer", [], false⟩ (some 10) .failure).2 = true :=
  C10_two_messages_appended ⟨"top customer", [], false⟩ (some 10) .failure
    (by decide)

/-- Claim C1, counterexample: on a successful backend call whose body is a
well-formed object that simply lacks an `answer` field (a malformed
response), `queryCSV` resolves with `undefined`, not with a string — in
particular not with the fallback sentence — so the claim that every outcome
yields a string is false. -/
theorem C1_counterexample :
    ¬ ∃ s : String, queryCSV "top customer" (.success (.obj [])) = .str s := by
  intro ⟨s, h⟩
  simp [queryCSV, JsValue.getField] at h

/-- Claim C1, amended: `queryCSV` never rejects (it is a total function of
the backend outcome), every caught error — a rejected request or a TypeError
from reading the `answer` field of a null or undefined body — becomes the
fixed fallback sentence, and on any other successful response it resolves
with the `answer` field verbatim, which is a string whenever the payload
carries a string there but may be `undefined` for a malformed payload. -/
theorem C1_amended (question : String) (outcome : AxiosOutcome) :
    queryCSV question outcome = .str fallbackMessage ∨
      ∃ data v, outcome = .success data ∧ data.getField "answer" = .ok v ∧
        queryCSV question outcome = v := by
  cases outcome with
  | failure => left; rfl
  | success data =>
    cases h : data.getField "answer" with
    | error e => left; simp [queryCSV, h]
    | ok v => right; exact ⟨data, v, rfl, h, by simp [queryCSV, h]⟩

/-- Claim C2: whenever the backend call succeeds and the response body is a
structured payload whose `answer` field holds the answer text, `queryCSV`
returns exactly that text. -/
theorem C2_success_returns_answer (question s : String)
    (fields : List (String × JsValue))
    (h : fields.lookup "answer" = some (.str s)) :
    queryCSV question (.success (.obj fields)) = .str s := by
  simp [queryCSV, JsValue.getField, h]

/-- Witness for C2 at a concrete payload. -/
theorem C2_witness :
    queryCSV "Who is the top customer?"
      (.success (.obj [("answer", .str "Alice is the top customer with $42")]))
      = .str "Alice is the top customer with $42" :=
  C2_success_returns_answer "Who is the top customer?"
    "Alice is the top customer with $42"
    [("answer", .str "Alice is the top customer with $42")] rfl

/-- Claim C6: the classifier maps the question text of the README example
to exactly the ItemsUnderPrice intent with threshold 5, through the
`under $N` entry of the synonym-pattern table. -/
theorem C6_items_under_five :
    classifyIntent "Show items under $5" = .itemsUnderPrice 5 := by
  decide

/-- The challenger step keeps an entry of the pair. -/
theorem betterEntry_mem (b e : String × ℚ) :
    betterEntry b e = b ∨ betterEntry b e = e := by
  unfold betterEntry
  split <;> simp

/-- The kept entry spends at least as much as the previous best. -/
theorem betterEntry_le_left (b e : String × ℚ) :
    b.2 ≤ (betterEntry b e).2 := by
  unfold betterEntry
  split
  case isTrue h =>
    rcases h with h | ⟨h1, _⟩
    · exact le_of_lt h
    · exact le_of_eq h1.symm
  case isFalse h => exact le_rfl

/-- The kept entry spends at least as much as the challenger. -/
theorem betterEntry_le_right (b e : String × ℚ) :
    e.2 ≤ (betterEntry b e).2 := by
  unfold betterEntry
  split
  case isTrue h => exact le_rfl
  case isFalse h =>
    push_neg at h
    exact h.1

/-- On a spend tie with the previous best, the kept identifier is not
larger than the previous best identifier. -/
theorem betterEntry_tie_left (b e : String × ℚ)
    (h : b.2 = (betterEntry b e).2) : (betterEntry b e).1 ≤ b.1 := by
  unfold betterEntry at h ⊢
  split
  case isTrue hc =>
    rw [if_pos hc] at h
    rcases hc with hc | ⟨_, hc2⟩
    · exact absurd h (ne_of_lt hc)
    · exact le_of_lt hc2
  case isFalse hc => exact le_rfl

/-- On a spend tie with the challenger, the kept identifier is not larger
than the challenger identifier. -/
theorem betterEntry_tie_right (b e : String × ℚ)
    (h : e.2 = (betterEntry b e).2) : (betterEntry b e).1 ≤ e.1 := by
  unfold betterEntry at h ⊢
  split
  case isTrue hc => exact le_rfl
  case isFalse hc =>
    rw [if_neg hc] at h
    push_neg at hc
    exact le_of_not_lt (hc.2 h)

/-- Invariant of the selection fold: the result is one of the entries, its
spend is maximal, and on any spend tie its identifier is smallest. -/
theorem foldl_betterEntry_spec (rest : List (String × ℚ)) :
    ∀ e : String × ℚ,
      rest.foldl betterEntry e ∈ e :: rest ∧
      (∀ x ∈ e :: rest, x.2 ≤ (rest.foldl betterEntry e).2) ∧
      (∀ x ∈ e :: rest, x.2 = (rest.foldl betterEntry e).2 →
        (rest.foldl betterEntry e).1 ≤ x.1) := by
  induction rest with
  | nil =>
    intro e
    refine ⟨by simp, ?_, ?_⟩ <;> intro x hx <;> simp at hx <;> simp [hx]
  | cons a rest ih =>
    intro e
    obtain ⟨ihmem, ihle, ihtie⟩ := ih (betterEntry e a)
    have hfold : (a :: rest).foldl betterEntry e =
        rest.foldl betterEntry (betterEntry e a) := rfl
    rw [hfold]
    have hba := betterEntry_mem e a
    have hheadle : (betterEntry e a).2 ≤ (rest.foldl betterEntry (betterEntry e a)).2 :=
      ihle _ (List.mem_cons_self _ _)
    refine ⟨?_, ?_, ?_⟩
    · rcases List.mem_cons.mp ihmem with h | h
      · rcases hba with hb | hb <;> rw [h, hb] <;> simp
      · exact List.mem_cons_of_mem _ (List.mem_cons_of_mem _ h)
    · intro x hx
      rcases List.mem_cons.mp hx with h | hx2
      · rw [h]
        exact le_trans (betterEntry_le_left e a) hheadle
      · rcases List.mem_cons.mp hx2 with h | h
        · rw [h]
          exact le_trans (betterEntry_le_right e a) hheadle
        · exact ihle x (List.mem_cons_of_mem _ h)
    · intro x hx hxeq
      have hhead_tie : (betterEntry e a).2 = (rest.foldl betterEntry (betterEntry e a)).2 →
          (rest.foldl betterEntry (betterEntry e a)).1 ≤ (betterEntry e a).1 :=
        ihtie _ (List.mem_cons_self _ _)
      rcases List.mem_cons.mp hx with h | hx2
      · rw [h] at hxeq ⊢
        have h1 : (betterEntry e a).2 = (rest.foldl betterEntry (betterEntry e a)).2 :=
          le_antisymm hheadle (hxeq ▸ betterEntry_le_left e a)
        exact le_trans (hhead_tie h1) (betterEntry_tie_left e a (hxeq.trans h1.symm))
      · rcases List.mem_cons.mp hx2 with h | h
        · rw [h] at hxeq ⊢
          have h1 : (betterEntry e a).2 = (rest.foldl betterEntry (betterEntry e a)).2 :=
            le_antisymm hheadle (hxeq ▸ betterEntry_le_right e a)
          exact le_trans (hhead_tie h1) (betterEntry_tie_right e a (hxeq.trans h1.symm))
        · exact ihtie x (List.mem_cons_of_mem _ h) hxeq

/-- Claim C7: on every nonempty customer-spend aggregate the selection of
the top-customer resolver returns an entry whose spend is the maximum and
whose identifier is lexicographically smallest among all entries sharing
that maximum spend — in particular, among two or more tied customers the
one with the smallest identifier is returned; the selection is a pure
function of the aggregate, so repeated invocations agree. -/
theorem C7_tie_breaks_lexicographically (entries : List (String × ℚ))
    (hne : entries ≠ []) :
    ∃ best, selectTop entries = some best ∧ best ∈ entries ∧
      (∀ x ∈ entries, x.2 ≤ best.2) ∧
      (∀ x ∈ entries, x.2 = best.2 → best.1 ≤ x.1) := by
  match entries, hne with
  | e :: rest, _ =>
    obtain ⟨hmem, hle, htie⟩ := foldl_betterEntry_spec rest e
    exact ⟨rest.foldl betterEntry e, rfl, hmem, hle, htie⟩

/-- Witness for C7 on a concrete tied aggregate: customers B and A both
spend 10, C spends 7; the selection yields an entry of maximal spend and
smallest tied identifier (concretely the entry for A). -/
theorem C7_witness :
    ∃ best, selectTop [("B", (10 : ℚ)), ("A", 10), ("C", 7)] = some best ∧
      best ∈ [("B", (10 : ℚ)), ("A", 10), ("C", 7)] ∧
      (∀ x ∈ [("B", (10 : ℚ)), ("A", 10), ("C", 7)], x.2 ≤ best.2) ∧
      (∀ x ∈ [("B", (10 : ℚ)), ("A", 10), ("C", 7)], x.2 = best.2 →
        best.1 ≤ x.1) :=
  C7_tie_breaks_lexicographically [("B", 10), ("A", 10), ("C", 7)] (by simp)
